import Mathlib

/-!
Shallow embedding of the chunked-upload core of the pat-auth-fastapi-demo
repository.

The embedded code is:
* `app/api/v1/fcs.py` — `init_chunked_upload`, `upload_chunk`,
  `abort_chunked_upload` (the upload-session coordinator endpoints);
* `app/services/chunked_upload.py` — `finalize_chunked_upload`;
* `app/services/cleanup.py` — `cleanup_expired_upload_sessions`
  (restricted to the effect on one session record);
* `app/services/background_tasks.py` — `calculate_statistics_task`;
* `app/services/fcs.py` — `validate_fcs_header`.

A session is modelled by one `BackgroundTask` record (the only persisted
entity the endpoints mutate) together with two booleans abstracting the
storage side effects of `LocalStorageBackend` (whether the temp file for
the session exists, and whether the promoted permanent file exists), and a
counter of how many times finalization has been scheduled via
`background_tasks.add_task`.  External fallible calls (storage writes, the
FCS parser, the final DB commit) are oracle parameters, since the embedded
code only branches on their success or failure and on the error message.

Byte strings are `List Nat` (one entry per byte value).  Timestamps are
`Nat` (seconds); `expires_at = now + 86400` models
`datetime.now() + timedelta(hours=24)`.
-/

/-- Status values of `background_tasks.status`.  The model docstring in
`app/models/background_task.py` lists pending, processing, finalizing,
completed, failed, expired; the alembic migration
`20260214140000_remove_finalizing_from_taskstatus` removed `finalizing`
from the persisted enumeration, but the code-level enumeration referenced
by `TaskStatus.FINALIZING` still contains it. -/
inductive TaskStatus where
  | pending
  | processing
  | finalizing
  | completed
  | failed
  | expired
deriving DecidableEq

/-- Task kinds stored in `background_tasks.task_type`. -/
inductive TaskType where
  | chunked_upload
  | statistics
deriving DecidableEq

/-- Terminal `result` payloads written by the code.  `success` is the
upload result dict of `finalize_chunked_upload` (file_id, filename,
total_events, total_parameters); `statsSuccess` the statistics result
dict; `failure` any dict carrying an `error_message` / `error` string. -/
inductive TaskResult where
  | success (file_id : String) (filename : String)
      (total_events : Nat) (total_parameters : Nat)
  | statsSuccess (total_events : Nat)
  | failure (error_message : String)
deriving DecidableEq

/-- The `extra_data` JSON blob of a chunked-upload task, as initialised by
`init_chunked_upload` in `app/api/v1/fcs.py` (the `accumulated_upload_ms`
key is absent until the first chunk and read with default 0, modelled by
initial value 0). -/
structure ExtraData where
  filename : String
  file_size : Nat
  total_chunks : Nat
  chunk_size : Nat
  uploaded_chunks : Nat
  uploaded_bytes : Nat
  uploaded_chunk_numbers : List Nat
  accumulated_upload_ms : Nat
  is_public : Bool
  temp_file_path : Option String
deriving DecidableEq

/-- One `background_tasks` row, restricted to the columns the embedded
code reads or writes. -/
structure BackgroundTask where
  task_type : TaskType
  status : TaskStatus
  result : Option TaskResult
  extra_data : Option ExtraData
  expires_at : Option Nat
deriving DecidableEq

/-- State of one session: its task record, the storage side effects, and
the number of `background_tasks.add_task(finalize_chunked_upload, ...)`
calls made so far for it. -/
structure SessState where
  task : BackgroundTask
  tempFileExists : Bool
  permFileExists : Bool
  finalizeScheduled : Nat
deriving DecidableEq

/-- Reading `(task.extra_data or {}).get("total_chunks", 0)`. -/
def ed_get_total_chunks : Option ExtraData → Nat
  | none => 0
  | some ed => ed.total_chunks

/-- Reading `extra_data.get("uploaded_chunks", 0)`. -/
def ed_get_uploaded_chunks : Option ExtraData → Nat
  | none => 0
  | some ed => ed.uploaded_chunks

/-- Reading `extra_data.get("filename", "unknown.fcs")`. -/
def ed_get_filename : Option ExtraData → String
  | none => "unknown.fcs"
  | some ed => ed.filename

/-- The three magic bytes `b"FCS"` (ASCII F, C, S). -/
def fcsMagic : List Nat := [70, 67, 83]

/-- Embedding of `validate_fcs_header` from `app/services/fcs.py`: raises
(here: returns `Except.error`) when the data has fewer than 3 bytes or its
first 3 bytes differ from the magic, else returns True (here `ok ()`). -/
def validate_fcs_header (chunk_data : List Nat) : Except String Unit :=
  if chunk_data.length < 3 then
    Except.error "Chunk too small to validate FCS format"
  else if chunk_data.take 3 ≠ fcsMagic then
    Except.error "Invalid FCS file format: file must start with FCS magic number"
  else
    Except.ok ()

/-- The chunk-0 guard of `upload_chunk` step 5.6: only chunk 0 is checked,
and a `ValueError` from `validate_fcs_header` means rejection. -/
def header_ok (chunk_number : Nat) (chunk_data : List Nat) : Bool :=
  if chunk_number = 0 then
    match validate_fcs_header chunk_data with
    | Except.ok _ => true
    | Except.error _ => false
  else true

/-- The ceiling division of `init_chunked_upload` step 2:
`total_chunks = (file_size + chunk_size - 1) // chunk_size`. -/
def calc_total_chunks (file_size chunk_size : Nat) : Nat :=
  (file_size + chunk_size - 1) / chunk_size

/-- Expected size of a chunk, from `upload_chunk` step 5.5: `chunk_size`
for every index below `total_chunks - 1`; for the last index the
remainder `file_size % chunk_size`, or `chunk_size` when it is zero. -/
def expected_chunk_size (ed : ExtraData) (chunk_number : Nat) : Nat :=
  if chunk_number < ed.total_chunks - 1 then ed.chunk_size
  else
    let remaining := ed.file_size % ed.chunk_size
    if remaining ≠ 0 then remaining else ed.chunk_size

/-- The task record committed by `init_chunked_upload` step 3 (status
`pending`, fresh progress counters, `expires_at` 24 hours ahead). -/
def init_create_state (filename : String) (file_size chunk_size : Nat)
    (is_public : Bool) (now : Nat) : SessState :=
  { task := {
      task_type := TaskType.chunked_upload
      status := TaskStatus.pending
      result := none
      extra_data := some {
        filename := filename
        file_size := file_size
        total_chunks := calc_total_chunks file_size chunk_size
        chunk_size := chunk_size
        uploaded_chunks := 0
        uploaded_bytes := 0
        uploaded_chunk_numbers := []
        accumulated_upload_ms := 0
        is_public := is_public
        temp_file_path := none }
      expires_at := some (now + 86400) }
    tempFileExists := false
    permFileExists := false
    finalizeScheduled := 0 }

/-- Setting `task.extra_data["temp_file_path"] = temp_path`. -/
def set_temp_path : Option ExtraData → String → Option ExtraData
  | none, _ => none
  | some ed, p => some { ed with temp_file_path := some p }

/-- Step 4 of `init_chunked_upload`: `storage.init_chunked_upload` either
succeeds (temp file created, status `processing`) or raises (status
`failed`, generic result recorded, no temp file left behind). -/
def init_storage_step (st : SessState) (storage_ok : Bool)
    (temp_path : String) : SessState :=
  if storage_ok then
    { st with
      tempFileExists := true
      task := { st.task with
        status := TaskStatus.processing
        extra_data := set_temp_path st.task.extra_data temp_path } }
  else
    { st with task := { st.task with
        status := TaskStatus.failed
        result := some (TaskResult.failure "Failed to initialize upload") } }

/-- Synchronous rejections of `upload_chunk` (HTTP 400 branches). -/
inductive ChunkError where
  | badTaskType
  | conflict
  | outOfRange
  | sizeMismatch
  | invalidFormat
  | saveFailed
deriving DecidableEq

/-- The progress update and finalize trigger of `upload_chunk` steps 6-7
after `storage.save_chunk` succeeded with `len` bytes written: the chunk
index and counter are only recorded for a new index, but
`uploaded_bytes` and `accumulated_upload_ms` are incremented
unconditionally; finalization is scheduled when the updated
`uploaded_chunks` equals `total_chunks` and the status is not in
`["finalizing", "completed"]`. -/
def accept_update (st : SessState) (ed : ExtraData) (n len ms : Nat) :
    SessState :=
  let ed1 :=
    if n ∈ ed.uploaded_chunk_numbers then ed
    else { ed with
      uploaded_chunk_numbers := ed.uploaded_chunk_numbers ++ [n]
      uploaded_chunks := ed.uploaded_chunks + 1 }
  let ed2 := { ed1 with
    uploaded_bytes := ed1.uploaded_bytes + len
    accumulated_upload_ms := ed1.accumulated_upload_ms + ms }
  let task2 := { st.task with extra_data := some ed2 }
  let is_last_chunk : Bool := decide (ed2.uploaded_chunks = ed2.total_chunks)
  let not_finalizing : Bool :=
    ! decide (task2.status ∈ [TaskStatus.finalizing, TaskStatus.completed])
  { st with
    task := task2
    finalizeScheduled := st.finalizeScheduled +
      (if is_last_chunk && not_finalizing then 1 else 0) }

/-- Embedding of the `upload_chunk` endpoint of `app/api/v1/fcs.py` for
one session (the not-found and ownership branches concern other sessions
or callers and never touch this record).  `storage_ok` is the oracle for
`storage.save_chunk` not raising; a missing temp file makes `save_chunk`
raise `FileNotFoundError`, which the endpoint turns into the same
status-`failed` path.  `ms` is the measured chunk upload time. -/
def upload_chunk (st : SessState) (chunk_number : Nat)
    (chunk_data : List Nat) (storage_ok : Bool) (ms : Nat) :
    SessState × Option ChunkError :=
  if st.task.task_type ≠ TaskType.chunked_upload then
    (st, some ChunkError.badTaskType)
  else if st.task.status ∉ [TaskStatus.pending, TaskStatus.processing] then
    (st, some ChunkError.conflict)
  else
    match st.task.extra_data with
    | none =>
      -- with `extra_data` absent every getter defaults to 0, so the
      -- `chunk_number >= total_chunks` test rejects immediately
      (st, some ChunkError.outOfRange)
    | some ed =>
      if ed.total_chunks ≤ chunk_number then (st, some ChunkError.outOfRange)
      else if chunk_data.length ≠ expected_chunk_size ed chunk_number then
        (st, some ChunkError.sizeMismatch)
      else if header_ok chunk_number chunk_data = false then
        (st, some ChunkError.invalidFormat)
      else if ¬ (storage_ok = true ∧ st.tempFileExists = true) then
        ({ st with task := { st.task with
            status := TaskStatus.failed
            result := some (TaskResult.failure "Failed to save chunk") } },
         some ChunkError.saveFailed)
      else
        (accept_update st ed chunk_number chunk_data.length ms, none)

/-- Embedding of the `abort_chunked_upload` endpoint: rejected (HTTP 400,
`some ()`) only when the status is `completed`; otherwise the temp file is
removed best-effort and the record is set to `failed` with the user-abort
result. -/
def abort_chunked_upload (st : SessState) : SessState × Option Unit :=
  if st.task.status = TaskStatus.completed then (st, some ())
  else
    ({ st with
        tempFileExists := false
        task := { st.task with
          status := TaskStatus.failed
          result := some (TaskResult.failure "Upload aborted by user") } },
     none)

/-- Metadata returned by the parser collaborator `get_fcs_parameters`. -/
structure ParsedMeta where
  total_events : Nat
  total_parameters : Nat
deriving DecidableEq

/-- Outcome labels for the branches of `finalize_chunked_upload`. -/
inductive FinalizeOutcome where
  | alreadyCompleted
  | alreadyFinalizing
  | incomplete
  | storageError
  | parserError
  | commitError
  | finished
deriving DecidableEq

/-- Embedding of `finalize_chunked_upload` from
`app/services/chunked_upload.py`.  `storage_ok` is the oracle for
`storage.finalize_chunked_upload` (which also raises when the temp file is
gone); on its success the temp file has been renamed to the permanent
location.  `parse_result` is the parser collaborator outcome, `commit_ok`
the oracle for the metadata-record commit.  On parser or commit failure
the promoted permanent file is deleted before the failure is recorded,
and the stored `error_message` embeds the exception text verbatim
(`str(e)` interpolation in the source). -/
def finalize_chunked_upload (st : SessState) (file_id : String)
    (storage_ok : Bool) (storage_err : String)
    (parse_result : Except String ParsedMeta)
    (commit_ok : Bool) (commit_err : String) :
    SessState × FinalizeOutcome :=
  if st.task.status = TaskStatus.completed then
    (st, FinalizeOutcome.alreadyCompleted)
  else if st.task.status = TaskStatus.finalizing then
    (st, FinalizeOutcome.alreadyFinalizing)
  else if ed_get_uploaded_chunks st.task.extra_data ≠
      ed_get_total_chunks st.task.extra_data then
    (st, FinalizeOutcome.incomplete)
  else if ¬ (storage_ok = true ∧ st.tempFileExists = true) then
    ({ st with task := { st.task with
        status := TaskStatus.failed
        result := some (TaskResult.failure
          ("Failed to finalize upload: " ++ storage_err)) } },
     FinalizeOutcome.storageError)
  else
    match parse_result with
    | Except.error e =>
      ({ st with
          tempFileExists := false
          permFileExists := false
          task := { st.task with
            status := TaskStatus.failed
            result := some (TaskResult.failure ("Invalid FCS file: " ++ e)) } },
       FinalizeOutcome.parserError)
    | Except.ok meta =>
      if commit_ok then
        ({ st with
            tempFileExists := false
            permFileExists := true
            task := { st.task with
              status := TaskStatus.completed
              result := some (TaskResult.success file_id
                (ed_get_filename st.task.extra_data)
                meta.total_events meta.total_parameters) } },
         FinalizeOutcome.finished)
      else
        ({ st with
            tempFileExists := false
            permFileExists := false
            task := { st.task with
              status := TaskStatus.failed
              result := some (TaskResult.failure
                ("Failed to save file metadata: " ++ commit_err)) } },
         FinalizeOutcome.commitError)

/-- Comparison `BackgroundTask.expires_at < now` in SQL: false for NULL. -/
def expires_before : Option Nat → Nat → Bool
  | none, _ => false
  | some t, now => decide (t < now)

/-- Effect of `cleanup_expired_upload_sessions` on one record: a
chunked-upload task in pending, processing, finalizing or failed whose
`expires_at` has passed gets its temp file removed (best effort) and its
status set to `expired`; its `result` is left as it is. -/
def cleanup_expired_session (st : SessState) (now : Nat) : SessState :=
  if st.task.task_type = TaskType.chunked_upload ∧
      st.task.status ∈ [TaskStatus.pending, TaskStatus.processing,
        TaskStatus.finalizing, TaskStatus.failed] ∧
      expires_before st.task.expires_at now = true then
    { st with
        tempFileExists := false
        task := { st.task with status := TaskStatus.expired } }
  else st

/-- The statistics task created by `trigger_statistics_calculation`
(status `pending`, no result, no extra data, no expiry). -/
def stats_create_state : SessState :=
  { task := {
      task_type := TaskType.statistics
      status := TaskStatus.pending
      result := none
      extra_data := none
      expires_at := none }
    tempFileExists := false
    permFileExists := false
    finalizeScheduled := 0 }

/-- First commit of `calculate_statistics_task`: the status is set to
`processing` unconditionally — the job checks only that the task row
exists, not its current status or result. -/
def stats_mark_processing (st : SessState) : SessState :=
  { st with task := { st.task with status := TaskStatus.processing } }

/-- Terminal commit of `calculate_statistics_task`: on success status
`completed` with the statistics result, on an exception status `failed`
with the error string. -/
def stats_finish_step (st : SessState) (calc_result : Except String Nat) :
    SessState :=
  match calc_result with
  | Except.ok total_events =>
    { st with task := { st.task with
        status := TaskStatus.completed
        result := some (TaskResult.statsSuccess total_events) } }
  | Except.error e =>
    { st with task := { st.task with
        status := TaskStatus.failed
        result := some (TaskResult.failure e) } }

/-- The numeric form validation of `init_chunked_upload`:
`file_size: gt=0, le=1000*1024*1024` and
`chunk_size: ge=1*1024*1024, le=10*1024*1024`.  (The filename-extension
check rejects the request before any record is created, so it does not
constrain reachable states.) -/
def upload_form_valid (file_size chunk_size : Nat) : Prop :=
  0 < file_size ∧ file_size ≤ 1000 * 1024 * 1024 ∧
  1024 * 1024 ≤ chunk_size ∧ chunk_size ≤ 10 * 1024 * 1024

/-- Reachable session states: every committed record state produced by the
endpoints, the finalizer, the statistics task and the expiry sweep,
starting from session or job creation.  Oracle parameters range over all
outcomes.  `finalize_chunked_upload` and the statistics steps are only
invoked on tasks of their own kind (their only call sites schedule them
with the id of the task they just created or loaded), but the statistics
steps carry no status hypothesis: `calculate_statistics_task` assigns
`processing` and then the terminal state unconditionally, whatever state
the row is in when the scheduled job runs — in particular after the
type-check-free abort endpoint has failed the task. -/
inductive Reach : SessState → Prop where
  | initCreate (filename : String) (file_size chunk_size : Nat)
      (is_public : Bool) (now : Nat)
      (hv : upload_form_valid file_size chunk_size) :
      Reach (init_create_state filename file_size chunk_size is_public now)
  | initStorage (st : SessState) (storage_ok : Bool) (temp_path : String)
      (h : Reach st) (hp : st.task.status = TaskStatus.pending)
      (ht : st.task.task_type = TaskType.chunked_upload) :
      Reach (init_storage_step st storage_ok temp_path)
  | stepChunk (st : SessState) (n : Nat) (d : List Nat) (ok : Bool)
      (ms : Nat) (h : Reach st) :
      Reach (upload_chunk st n d ok ms).fst
  | stepAbort (st : SessState) (h : Reach st) :
      Reach (abort_chunked_upload st).fst
  | stepFinalize (st : SessState) (file_id : String) (sok : Bool)
      (serr : String) (pr : Except String ParsedMeta) (cok : Bool)
      (cerr : String) (h : Reach st)
      (ht : st.task.task_type = TaskType.chunked_upload) :
      Reach (finalize_chunked_upload st file_id sok serr pr cok cerr).fst
  | stepCleanup (st : SessState) (now : Nat) (h : Reach st) :
      Reach (cleanup_expired_session st now)
  | statsCreate : Reach stats_create_state
  | statsProcessing (st : SessState) (h : Reach st)
      (ht : st.task.task_type = TaskType.statistics) :
      Reach (stats_mark_processing st)
  | statsFinish (st : SessState) (r : Except String Nat) (h : Reach st)
      (ht : st.task.task_type = TaskType.statistics) :
      Reach (stats_finish_step st r)

/-! ### Arithmetic facts about the chunk-count and chunk-size computations -/

/-- The ceiling-division trick written in `init_chunked_upload` agrees
with the usual quotient-plus-carry form of the ceiling. -/
theorem calc_total_chunks_eq (fs cs : Nat) (hcs : 0 < cs) :
    calc_total_chunks fs cs =
      fs / cs + (if fs % cs = 0 then 0 else 1) := by
  have hqr : cs * (fs / cs) + fs % cs = fs := Nat.div_add_mod fs cs
  have hrlt : fs % cs < cs := Nat.mod_lt _ hcs
  by_cases h0 : fs % cs = 0
  · have h1 : fs + cs - 1 = cs * (fs / cs) + (cs - 1) := by omega
    have hz : (cs - 1) / cs = 0 := Nat.div_eq_of_lt (by omega)
    rw [calc_total_chunks, h1, Nat.mul_add_div hcs, hz]
    simp [h0]
  · have hmul : cs * (fs / cs + 1) = cs * (fs / cs) + cs := by ring
    have h1 : fs + cs - 1 = cs * (fs / cs + 1) + (fs % cs - 1) := by omega
    have hz : (fs % cs - 1) / cs = 0 := Nat.div_eq_of_lt (by omega)
    rw [calc_total_chunks, h1, Nat.mul_add_div hcs, hz, if_neg h0]

/-- A session over a non-empty file always has at least one chunk. -/
theorem calc_total_chunks_pos (fs cs : Nat) (hfs : 0 < fs) (hcs : 0 < cs) :
    0 < calc_total_chunks fs cs := by
  rw [calc_total_chunks]
  have h := (Nat.one_le_div_iff hcs).2 (show cs ≤ fs + cs - 1 by omega)
  omega

/-- The computed chunk count is the ceiling of `fs / cs`: it is the least
count whose chunks of size `cs` cover `fs` bytes. -/
theorem calc_total_chunks_ceil (fs cs : Nat) (hfs : 0 < fs) (hcs : 0 < cs) :
    cs * (calc_total_chunks fs cs - 1) < fs ∧
      fs ≤ cs * calc_total_chunks fs cs := by
  have heq := calc_total_chunks_eq fs cs hcs
  have hqr : cs * (fs / cs) + fs % cs = fs := Nat.div_add_mod fs cs
  have hrlt : fs % cs < cs := Nat.mod_lt _ hcs
  by_cases h0 : fs % cs = 0
  · rw [heq, if_pos h0]
    have hq1 : 1 ≤ fs / cs := by
      rcases Nat.eq_zero_or_pos (fs / cs) with h | h
      · rw [h] at hqr; omega
      · exact h
    obtain ⟨q, hq⟩ : ∃ q, fs / cs = q + 1 := ⟨fs / cs - 1, by omega⟩
    rw [hq] at hqr ⊢
    have hmul : cs * (q + 1) = cs * q + cs := by ring
    simp only [Nat.add_zero, Nat.add_sub_cancel]
    omega
  · rw [heq, if_neg h0]
    have hmul : cs * (fs / cs + 1) = cs * (fs / cs) + cs := by ring
    simp only [Nat.add_sub_cancel]
    omega

/-- Expected size of every chunk before the last one is `chunk_size`. -/
theorem expected_chunk_size_nonlast (ed : ExtraData) (i : Nat)
    (hi : i < ed.total_chunks - 1) :
    expected_chunk_size ed i = ed.chunk_size := by
  rw [expected_chunk_size, if_pos hi]

/-- Expected size of the last chunk index equals the bytes left after the
earlier full chunks, `file_size - chunk_size * (total_chunks - 1)`. -/
theorem expected_chunk_size_last (ed : ExtraData)
    (hfs : 0 < ed.file_size) (hcs : 0 < ed.chunk_size)
    (htc : ed.total_chunks = calc_total_chunks ed.file_size ed.chunk_size) :
    expected_chunk_size ed (ed.total_chunks - 1) =
      ed.file_size - ed.chunk_size * (ed.total_chunks - 1) := by
  have heq := calc_total_chunks_eq ed.file_size ed.chunk_size hcs
  have hqr : ed.chunk_size * (ed.file_size / ed.chunk_size) +
      ed.file_size % ed.chunk_size = ed.file_size :=
    Nat.div_add_mod ed.file_size ed.chunk_size
  have hrlt : ed.file_size % ed.chunk_size < ed.chunk_size :=
    Nat.mod_lt _ hcs
  rw [expected_chunk_size, if_neg (by omega)]
  simp only
  by_cases h0 : ed.file_size % ed.chunk_size = 0
  · rw [if_neg (by simpa using h0)]
    rw [heq, if_pos h0] at htc
    have hq1 : 1 ≤ ed.file_size / ed.chunk_size := by
      rcases Nat.eq_zero_or_pos (ed.file_size / ed.chunk_size) with h | h
      · rw [h] at hqr; omega
      · exact h
    obtain ⟨q, hq⟩ : ∃ q, ed.file_size / ed.chunk_size = q + 1 :=
      ⟨ed.file_size / ed.chunk_size - 1, by omega⟩
    rw [hq] at hqr htc
    have hmul : ed.chunk_size * (q + 1) = ed.chunk_size * q + ed.chunk_size := by
      ring
    rw [htc]
    simp only [Nat.add_zero, Nat.add_sub_cancel]
    omega
  · rw [if_pos (by simpa using h0)]
    rw [heq, if_neg h0] at htc
    rw [htc]
    simp only [Nat.add_sub_cancel]
    omega

/-- For a file smaller than the 3-byte magic header, the expected size of
chunk 0 is itself smaller than 3 bytes. -/
theorem expected_chunk_size_zero_lt_three (ed : ExtraData)
    (hfs : 0 < ed.file_size) (hcs : 0 < ed.chunk_size)
    (htc : ed.total_chunks = calc_total_chunks ed.file_size ed.chunk_size)
    (hsmall : ed.file_size < 3) :
    expected_chunk_size ed 0 < 3 := by
  rw [expected_chunk_size]
  by_cases h : 0 < ed.total_chunks - 1
  · rw [if_pos h]
    have hceil := (calc_total_chunks_ceil _ _ hfs hcs).1
    rw [← htc] at hceil
    have hle : ed.chunk_size ≤ ed.chunk_size * (ed.total_chunks - 1) :=
      Nat.le_mul_of_pos_right _ h
    omega
  · rw [if_neg h]
    simp only
    by_cases hr : ed.file_size % ed.chunk_size = 0
    · rw [if_neg (by simpa using hr)]
      have hdvd := Nat.dvd_of_mod_eq_zero hr
      have := Nat.le_of_dvd hfs hdvd
      omega
    · rw [if_pos (by simpa using hr)]
      have := Nat.mod_le ed.file_size ed.chunk_size
      omega

/-! ### Facts about the magic-header check -/

/-- A chunk-0 payload that passes the header check has at least 3 bytes. -/
theorem header_ok_zero_length (d : List Nat) (h : header_ok 0 d = true) :
    3 ≤ d.length := by
  by_contra hlt
  push_neg at hlt
  simp [header_ok, validate_fcs_header, hlt] at h

/-- Any payload whose first 3 bytes are the magic passes the check; the
remaining content is never inspected. -/
theorem validate_ok_of_magic (d : List Nat) (h : d.take 3 = fcsMagic) :
    validate_fcs_header d = Except.ok () := by
  have hlen : 3 ≤ d.length := by
    have h3 := congrArg List.length h
    rw [List.length_take] at h3
    simp only [fcsMagic, List.length_cons, List.length_nil] at h3
    omega
  rw [validate_fcs_header, if_neg (by omega), if_neg (by simp [h])]

/-- The header check fails exactly on payloads shorter than 3 bytes or
whose first 3 bytes differ from the magic. -/
theorem validate_error_iff (d : List Nat) :
    (∃ e, validate_fcs_header d = Except.error e) ↔
      (d.length < 3 ∨ d.take 3 ≠ fcsMagic) := by
  constructor
  · rintro ⟨e, he⟩
    by_contra hc
    push_neg at hc
    rw [validate_fcs_header, if_neg (by omega),
      if_neg (by simp [hc.2])] at he
    exact Except.noConfusion he
  · intro h
    rw [validate_fcs_header]
    by_cases h1 : d.length < 3
    · rw [if_pos h1]; exact ⟨_, rfl⟩
    · rw [if_neg h1]
      have h2 : d.take 3 ≠ fcsMagic := by tauto
      rw [if_pos h2]
      exact ⟨_, rfl⟩

/-! ### A list-counting fact used for the small-file claims -/

/-- A duplicate-free list of chunk indices below `tc` that misses index 0
cannot contain `tc` entries. -/
theorem nodup_bounded_no_zero_length_lt (tc : Nat) (l : List Nat)
    (hn : l.Nodup) (hb : ∀ i ∈ l, i < tc) (h0 : 0 ∉ l) (htc : 0 < tc) :
    l.length < tc := by
  have hsub : l.toFinset ⊆ (Finset.range tc).erase 0 := by
    intro i hi
    rw [List.mem_toFinset] at hi
    rw [Finset.mem_erase, Finset.mem_range]
    exact ⟨fun h => h0 (h ▸ hi), hb i hi⟩
  have hcard := Finset.card_le_card hsub
  rw [List.toFinset_card_of_nodup hn,
    Finset.card_erase_of_mem (Finset.mem_range.2 htc),
    Finset.card_range] at hcard
  omega

/-! ### Concrete well-formed chunk payloads -/

/-- A `len`-byte payload starting with the FCS magic. -/
def chunk_payload (len : Nat) : List Nat :=
  fcsMagic ++ List.replicate (len - 3) 0

/-- Length of `chunk_payload` for any realistic chunk length. -/
theorem chunk_payload_length (len : Nat) (h : 3 ≤ len) :
    (chunk_payload len).length = len := by
  simp [chunk_payload, fcsMagic]
  omega

/-- The first three bytes of `chunk_payload` are the magic. -/
theorem chunk_payload_take (len : Nat) :
    (chunk_payload len).take 3 = fcsMagic := by
  have h3 : fcsMagic.length = 3 := rfl
  rw [chunk_payload, ← h3, List.take_left]

/-! ### Structural lemmas about `upload_chunk` -/

/-- When every validation passes and storage succeeds, `upload_chunk`
performs exactly the progress update of steps 6-7. -/
theorem upload_chunk_accepts (st : SessState) (ed : ExtraData) (n : Nat)
    (d : List Nat) (ms : Nat)
    (hty : st.task.task_type = TaskType.chunked_upload)
    (hst : st.task.status = TaskStatus.pending ∨
      st.task.status = TaskStatus.processing)
    (hed : st.task.extra_data = some ed)
    (hn : n < ed.total_chunks)
    (hlen : d.length = expected_chunk_size ed n)
    (hhdr : header_ok n d = true)
    (htmp : st.tempFileExists = true) :
    upload_chunk st n d true ms = (accept_update st ed n d.length ms, none) := by
  rw [upload_chunk.eq_def, hed]
  rw [if_neg (by simp [hty])]
  rw [if_neg (by rcases hst with h | h <;> simp [h])]
  simp only
  rw [if_neg (by omega)]
  rw [if_neg (by simp [hlen])]
  rw [if_neg (by simp [hhdr])]
  rw [if_neg (by simp [htmp])]

/-- Case analysis of `upload_chunk`: a call either returns a synchronous
rejection without touching the state, fails the storage write and marks
the task failed, or performs the progress update. -/
theorem upload_chunk_cases (st : SessState) (n : Nat) (d : List Nat)
    (ok : Bool) (ms : Nat) :
    ((upload_chunk st n d ok ms).2 ≠ none ∧
      (upload_chunk st n d ok ms).2 ≠ some ChunkError.saveFailed ∧
      (upload_chunk st n d ok ms).1 = st) ∨
    ((upload_chunk st n d ok ms).2 = some ChunkError.saveFailed ∧
      (upload_chunk st n d ok ms).1 = { st with task := { st.task with
        status := TaskStatus.failed
        result := some (TaskResult.failure "Failed to save chunk") } }) ∨
    (∃ ed, st.task.extra_data = some ed ∧
      (upload_chunk st n d ok ms).2 = none ∧
      (st.task.status = TaskStatus.pending ∨
        st.task.status = TaskStatus.processing) ∧
      n < ed.total_chunks ∧ d.length = expected_chunk_size ed n ∧
      header_ok n d = true ∧
      (upload_chunk st n d ok ms).1 = accept_update st ed n d.length ms) := by
  rw [upload_chunk.eq_def]
  split
  · exact Or.inl (by simp)
  rename_i hty
  split
  · exact Or.inl (by simp)
  rename_i hst
  split
  · exact Or.inl (by simp)
  rename_i ed heq
  split
  · exact Or.inl (by simp)
  rename_i hn
  split
  · exact Or.inl (by simp)
  rename_i hlen
  split
  · exact Or.inl (by simp)
  rename_i hhdr
  split
  · exact Or.inr (Or.inl (by simp))
  rename_i hsave
  refine Or.inr (Or.inr ⟨ed, heq, by simp, ?_, by omega, by omega, ?_, by simp⟩)
  · have hmem : st.task.status ∈ [TaskStatus.pending, TaskStatus.processing] :=
      not_not.mp hst
    simpa using hmem
  · simp at hhdr
    exact hhdr

/-! ### The state invariant maintained by every operation -/

/-- Invariant of the chunked-upload `extra_data` blob: well-formed sizes,
chunk count per the init formula, the progress counter mirrors the
duplicate-free bounded index list, and files smaller than the magic
header can never get chunk 0 accepted nor the session completed. -/
def EDInv (status : TaskStatus) (ed : ExtraData) : Prop :=
  0 < ed.file_size ∧ 0 < ed.chunk_size ∧
  ed.total_chunks = calc_total_chunks ed.file_size ed.chunk_size ∧
  ed.uploaded_chunks = ed.uploaded_chunk_numbers.length ∧
  ed.uploaded_chunk_numbers.Nodup ∧
  (∀ i ∈ ed.uploaded_chunk_numbers, i < ed.total_chunks) ∧
  (ed.file_size < 3 →
    0 ∉ ed.uploaded_chunk_numbers ∧ status ≠ TaskStatus.completed)

/-- Invariant of reachable session states: the status `finalizing` is
never assigned; a completed or failed record carries a result; a record
carrying a result is never `pending` (it need not be terminal: the sweep
keeps the result of a failed record it expires, and the statistics job
marks even an aborted — failed, result set — task `processing`);
statistics tasks have no upload blob; upload blobs satisfy `EDInv`. -/
def ReachInv (st : SessState) : Prop :=
  st.task.status ≠ TaskStatus.finalizing ∧
  ((st.task.status = TaskStatus.completed ∨
    st.task.status = TaskStatus.failed) → st.task.result.isSome = true) ∧
  (st.task.result.isSome = true → st.task.status ≠ TaskStatus.pending) ∧
  (st.task.task_type = TaskType.statistics → st.task.extra_data = none) ∧
  (∀ ed, st.task.extra_data = some ed → EDInv st.task.status ed)

/-- The accepted-chunk update preserves the invariant. -/
theorem inv_accept_update (st : SessState) (ed : ExtraData) (n len ms : Nat)
    (h : ReachInv st)
    (hed : st.task.extra_data = some ed)
    (hst : st.task.status = TaskStatus.pending ∨
      st.task.status = TaskStatus.processing)
    (hn : n < ed.total_chunks)
    (hlen : len = expected_chunk_size ed n)
    (hhdr : n = 0 → 3 ≤ len) :
    ReachInv (accept_update st ed n len ms) := by
  obtain ⟨h1, h2, h3, h4, h5⟩ := h
  obtain ⟨e1, e2, e3, e4, e5, e6, e7⟩ := h5 ed hed
  have hne : n ≠ 0 ∨ ¬ ed.file_size < 3 := by
    by_cases hz : n = 0
    · right
      intro hsm
      subst hz
      have hlt := expected_chunk_size_zero_lt_three ed e1 e2 e3 hsm
      have h3l := hhdr rfl
      omega
    · exact Or.inl hz
  refine ⟨?_, ?_, ?_, ?_, ?_⟩
  · simpa [accept_update] using h1
  · intro hc
    rcases hst with hp | hp <;>
      simp [accept_update, hp] at hc
  · intro hc
    simp [accept_update] at hc
    rcases hst with hp | hp
    · exact absurd hp (h3 hc)
    · simp [accept_update, hp]
  · intro hc
    simp [accept_update] at hc
    have := h4 hc
    rw [hed] at this
    exact Option.noConfusion this
  · intro ed' hed'
    simp only [accept_update] at hed'
    by_cases hmem : n ∈ ed.uploaded_chunk_numbers
    · rw [if_pos hmem] at hed'
      obtain rfl : ed' = { ed with
          uploaded_bytes := ed.uploaded_bytes + len
          accumulated_upload_ms := ed.accumulated_upload_ms + ms } := by
        simpa using hed'.symm
      refine ⟨e1, e2, e3, e4, e5, e6, fun hsm => ?_⟩
      refine ⟨(e7 hsm).1, ?_⟩
      rcases hst with hp | hp <;> simp [accept_update, hp]
    · rw [if_neg hmem] at hed'
      obtain rfl : ed' = { ed with
          uploaded_chunk_numbers := ed.uploaded_chunk_numbers ++ [n]
          uploaded_chunks := ed.uploaded_chunks + 1
          uploaded_bytes := ed.uploaded_bytes + len
          accumulated_upload_ms := ed.accumulated_upload_ms + ms } := by
        simpa using hed'.symm
      refine ⟨e1, e2, e3, by simp [e4], ?_, ?_, fun hsm => ?_⟩
      · rw [List.nodup_append]
        exact ⟨e5, List.nodup_singleton n, by
          intro a ha hb
          simp at hb
          exact hmem (hb ▸ ha)⟩
      · intro i hi
        rcases List.mem_append.mp hi with hi | hi
        · exact e6 i hi
        · simp at hi
          subst hi
          exact hn
      · have hn0 : n ≠ 0 := by
          rcases hne with h | h
          · exact h
          · exact absurd hsm h
        refine ⟨?_, ?_⟩
        · intro hz
          rcases List.mem_append.mp hz with hz | hz
          · exact (e7 hsm).1 hz
          · simp at hz
            exact hn0 hz.symm
        · rcases hst with hp | hp <;> simp [accept_update, hp]

/-- A status change away from `completed` preserves the blob invariant. -/
theorem EDInv_status_change (s s' : TaskStatus) (ed : ExtraData)
    (h : EDInv s ed) (hs : s' ≠ TaskStatus.completed) : EDInv s' ed := by
  obtain ⟨e1, e2, e3, e4, e5, e6, e7⟩ := h
  exact ⟨e1, e2, e3, e4, e5, e6, fun hsm => ⟨(e7 hsm).1, hs⟩⟩

/-- Session creation establishes the invariant. -/
theorem inv_init_create (filename : String) (fs cs : Nat) (is_public : Bool)
    (now : Nat) (hv : upload_form_valid fs cs) :
    ReachInv (init_create_state filename fs cs is_public now) := by
  obtain ⟨h1, h2, h3, h4⟩ := hv
  refine ⟨by simp [init_create_state], ?_, ?_, ?_, ?_⟩
  · intro hc
    simp [init_create_state] at hc
  · intro hc
    simp [init_create_state] at hc
  · intro hc
    simp [init_create_state] at hc
  · intro ed hed
    simp only [init_create_state, Option.some.injEq] at hed
    subst hed
    refine ⟨h1, by show 0 < cs; omega, rfl, rfl, List.nodup_nil, by simp, ?_⟩
    intro _
    exact ⟨by simp, by simp [init_create_state]⟩

/-- The storage-initialisation step preserves the invariant. -/
theorem inv_init_storage (st : SessState) (ok : Bool) (tp : String)
    (h : ReachInv st) (hp : st.task.status = TaskStatus.pending) :
    ReachInv (init_storage_step st ok tp) := by
  obtain ⟨h1, h2, h3, h4, h5⟩ := h
  have hres : st.task.result = none := by
    cases hr : st.task.result with
    | none => rfl
    | some r =>
      have hmem := h3 (by simp [hr])
      rw [hp] at hmem
      simp at hmem
  rw [init_storage_step]
  by_cases hok : ok = true
  · rw [if_pos hok]
    refine ⟨by simp, ?_, ?_, ?_, ?_⟩
    · intro hc
      simp at hc
    · intro hc
      simp [hres] at hc
    · intro hts
      simp at hts
      have hed := h4 hts
      simp [hed, set_temp_path]
    · intro ed' hed'
      simp only [set_temp_path] at hed'
      cases heq : st.task.extra_data with
      | none =>
        rw [heq] at hed'
        simp [set_temp_path] at hed'
      | some ed =>
        rw [heq] at hed'
        simp only [set_temp_path, Option.some.injEq] at hed'
        subst hed'
        exact EDInv_status_change _ _ _ (h5 ed heq) (by simp)
  · rw [if_neg hok]
    refine ⟨by simp, by simp, ?_, fun hts => by simpa using h4 (by simpa using hts), ?_⟩
    · intro _
      simp
    · intro ed hed
      simp at hed
      exact EDInv_status_change _ _ _ (h5 ed hed) (by simp)

/-- `upload_chunk` preserves the invariant. -/
theorem inv_upload_chunk (st : SessState) (n : Nat) (d : List Nat)
    (ok : Bool) (ms : Nat) (h : ReachInv st) :
    ReachInv (upload_chunk st n d ok ms).1 := by
  rcases upload_chunk_cases st n d ok ms with
    ⟨_, _, heq⟩ | ⟨_, heq⟩ |
    ⟨ed, hed, _, hst, hn, hlen, hhdr, heq⟩
  · rw [heq]
    exact h
  · rw [heq]
    obtain ⟨h1, h2, h3, h4, h5⟩ := h
    refine ⟨by simp, by simp, ?_, fun hts => by simpa using h4 (by simpa using hts), ?_⟩
    · intro _
      simp
    · intro ed hed
      simp at hed
      exact EDInv_status_change _ _ _ (h5 ed hed) (by simp)
  · rw [heq]
    refine inv_accept_update st ed n d.length ms h hed hst hn hlen ?_
    intro hz
    subst hz
    exact header_ok_zero_length d hhdr

/-- `abort_chunked_upload` preserves the invariant. -/
theorem inv_abort (st : SessState) (h : ReachInv st) :
    ReachInv (abort_chunked_upload st).1 := by
  obtain ⟨h1, h2, h3, h4, h5⟩ := h
  rw [abort_chunked_upload]
  by_cases hc : st.task.status = TaskStatus.completed
  · rw [if_pos hc]
    exact ⟨h1, h2, h3, h4, h5⟩
  · rw [if_neg hc]
    refine ⟨by simp, by simp, ?_, fun hts => by simpa using h4 (by simpa using hts), ?_⟩
    · intro _
      simp
    · intro ed hed
      simp at hed
      exact EDInv_status_change _ _ _ (h5 ed hed) (by simp)

/-- Recording a failure result preserves the invariant regardless of the
storage flags. -/
theorem inv_task_failed (st : SessState) (t p : Bool) (msg : String)
    (h : ReachInv st) :
    ReachInv { st with
      tempFileExists := t
      permFileExists := p
      task := { st.task with
        status := TaskStatus.failed
        result := some (TaskResult.failure msg) } } := by
  obtain ⟨h1, h2, h3, h4, h5⟩ := h
  refine ⟨by simp, by simp, ?_,
    fun hts => by simpa using h4 (by simpa using hts), ?_⟩
  · intro _
    simp
  · intro ed hed
    simp at hed
    exact EDInv_status_change _ _ _ (h5 ed hed) (by simp)

/-- `finalize_chunked_upload` preserves the invariant. -/
theorem inv_finalize (st : SessState) (fid : String) (sok : Bool)
    (serr : String) (pr : Except String ParsedMeta) (cok : Bool)
    (cerr : String) (h : ReachInv st) :
    ReachInv (finalize_chunked_upload st fid sok serr pr cok cerr).1 := by
  obtain ⟨h1, h2, h3, h4, h5⟩ := h
  rw [finalize_chunked_upload.eq_def]
  by_cases c1 : st.task.status = TaskStatus.completed
  · rw [if_pos c1]
    exact ⟨h1, h2, h3, h4, h5⟩
  rw [if_neg c1]
  by_cases c2 : st.task.status = TaskStatus.finalizing
  · rw [if_pos c2]
    exact ⟨h1, h2, h3, h4, h5⟩
  rw [if_neg c2]
  by_cases c3 : ed_get_uploaded_chunks st.task.extra_data ≠
      ed_get_total_chunks st.task.extra_data
  · rw [if_pos c3]
    exact ⟨h1, h2, h3, h4, h5⟩
  rw [if_neg c3]
  by_cases c4 : ¬ (sok = true ∧ st.tempFileExists = true)
  · rw [if_pos c4]
    exact inv_task_failed st st.tempFileExists st.permFileExists
      ("Failed to finalize upload: " ++ serr) ⟨h1, h2, h3, h4, h5⟩
  rw [if_neg c4]
  cases pr with
  | error e =>
    exact inv_task_failed st false false ("Invalid FCS file: " ++ e)
      ⟨h1, h2, h3, h4, h5⟩
  | ok meta =>
    by_cases c5 : cok = true
    · simp only [if_pos c5]
      refine ⟨by simp, by simp, ?_,
        fun hts => by simpa using h4 (by simpa using hts), ?_⟩
      · intro _
        simp
      · intro ed' hed'
        simp at hed'
        obtain ⟨e1, e2, e3, e4, e5, e6, e7⟩ := h5 ed' hed'
        refine ⟨e1, e2, e3, e4, e5, e6, fun hsm => ?_⟩
        exfalso
        have hpos : 0 < ed'.total_chunks := by
          rw [e3]
          exact calc_total_chunks_pos _ _ e1 e2
        have hlt := nodup_bounded_no_zero_length_lt ed'.total_chunks
          ed'.uploaded_chunk_numbers e5 e6 (e7 hsm).1 hpos
        have hcomp : ed'.uploaded_chunks = ed'.total_chunks := by
          have hx := not_not.mp c3
          simpa [ed_get_uploaded_chunks, ed_get_total_chunks, hed'] using hx
        omega
    · simp only [if_neg c5]
      exact inv_task_failed st false false
        ("Failed to save file metadata: " ++ cerr) ⟨h1, h2, h3, h4, h5⟩

/-- The expiry sweep preserves the invariant. -/
theorem inv_cleanup (st : SessState) (now : Nat) (h : ReachInv st) :
    ReachInv (cleanup_expired_session st now) := by
  obtain ⟨h1, h2, h3, h4, h5⟩ := h
  rw [cleanup_expired_session]
  split
  · refine ⟨by simp, ?_, ?_,
      fun hts => by simpa using h4 (by simpa using hts), ?_⟩
    · rintro (hx | hx) <;> simp at hx
    · intro _
      simp
    · intro ed hed
      simp at hed
      exact EDInv_status_change _ _ _ (h5 ed hed) (by simp)
  · exact ⟨h1, h2, h3, h4, h5⟩

/-- A fresh statistics task satisfies the invariant. -/
theorem inv_stats_create : ReachInv stats_create_state := by
  refine ⟨by simp [stats_create_state], ?_, ?_, fun _ => rfl, ?_⟩
  · rintro (hx | hx) <;> simp [stats_create_state] at hx
  · intro hx
    simp [stats_create_state] at hx
  · intro ed hed
    simp [stats_create_state] at hed

/-- The unconditional `processing` assignment of the statistics job
preserves the invariant: whatever record it hits (freshly pending, or
already failed by the type-check-free abort endpoint), the new status is
neither `finalizing` nor `pending` nor terminal, so every component
survives with the result left as it is. -/
theorem inv_stats_mark (st : SessState) (h : ReachInv st)
    (ht : st.task.task_type = TaskType.statistics) :
    ReachInv (stats_mark_processing st) := by
  obtain ⟨h1, h2, h3, h4, h5⟩ := h
  have hed : st.task.extra_data = none := h4 ht
  refine ⟨by simp [stats_mark_processing], ?_, ?_, ?_, ?_⟩
  · rintro (hx | hx) <;> simp [stats_mark_processing] at hx
  · intro _
    simp [stats_mark_processing]
  · intro _
    simpa [stats_mark_processing] using hed
  · intro ed hcon
    rw [show (stats_mark_processing st).task.extra_data =
      st.task.extra_data from rfl, hed] at hcon
    exact Option.noConfusion hcon

/-- Finishing a statistics task preserves the invariant. -/
theorem inv_stats_finish (st : SessState) (r : Except String Nat)
    (h : ReachInv st) (ht : st.task.task_type = TaskType.statistics) :
    ReachInv (stats_finish_step st r) := by
  obtain ⟨h1, h2, h3, h4, h5⟩ := h
  have hed : st.task.extra_data = none := h4 ht
  cases r with
  | ok te =>
    refine ⟨by simp [stats_finish_step], by simp [stats_finish_step], ?_,
      fun _ => by simpa [stats_finish_step] using hed, ?_⟩
    · intro _
      simp [stats_finish_step]
    · intro ed hcon
      rw [show (stats_finish_step st (Except.ok te)).task.extra_data =
        st.task.extra_data from rfl, hed] at hcon
      exact Option.noConfusion hcon
  | error e =>
    refine ⟨by simp [stats_finish_step], by simp [stats_finish_step], ?_,
      fun _ => by simpa [stats_finish_step] using hed, ?_⟩
    · intro _
      simp [stats_finish_step]
    · intro ed hcon
      rw [show (stats_finish_step st (Except.error e)).task.extra_data =
        st.task.extra_data from rfl, hed] at hcon
      exact Option.noConfusion hcon

/-- Every reachable session state satisfies the invariant. -/
theorem reach_inv (st : SessState) (h : Reach st) : ReachInv st := by
  induction h with
  | initCreate filename fs cs is_public now hv =>
    exact inv_init_create filename fs cs is_public now hv
  | initStorage st ok tp h hp ht ih => exact inv_init_storage st ok tp ih hp
  | stepChunk st n d ok ms h ih => exact inv_upload_chunk st n d ok ms ih
  | stepAbort st h ih => exact inv_abort st ih
  | stepFinalize st fid sok serr pr cok cerr h ht ih =>
    exact inv_finalize st fid sok serr pr cok cerr ih
  | stepCleanup st now h ih => exact inv_cleanup st now ih
  | statsCreate => exact inv_stats_create
  | statsProcessing st h ht ih => exact inv_stats_mark st ih ht
  | statsFinish st r h ht ih => exact inv_stats_finish st r ih ht

/-! ### A concrete session trace: one-chunk upload, chunk delivered twice -/

/-- Extra data right after a successful init of a 1 MiB upload with 1 MiB
chunks (one single chunk). -/
def demo_ed0 : ExtraData :=
  { filename := "sample.fcs"
    file_size := 1048576
    total_chunks := 1
    chunk_size := 1048576
    uploaded_chunks := 0
    uploaded_bytes := 0
    uploaded_chunk_numbers := []
    accumulated_upload_ms := 0
    is_public := true
    temp_file_path := some "tmp/10/1.tmp" }

/-- Session state after `init` of a 1 MiB file with 1 MiB chunks. -/
def demo_init : SessState :=
  init_storage_step
    (init_create_state "sample.fcs" 1048576 1048576 true 0) true "tmp/10/1.tmp"

/-- A valid 1 MiB chunk-0 payload. -/
def demo_chunk : List Nat := chunk_payload 1048576

/-- First delivery of chunk 0. -/
def demo_r1 : SessState × Option ChunkError :=
  upload_chunk demo_init 0 demo_chunk true 5

/-- Second (duplicate) delivery of the identical chunk 0, arriving before
the scheduled finalizer has run. -/
def demo_r2 : SessState × Option ChunkError :=
  upload_chunk demo_r1.1 0 demo_chunk true 7

/-- Extra data after the first accepted chunk. -/
def demo_ed1 : ExtraData := { demo_ed0 with
  uploaded_chunks := 1
  uploaded_bytes := 1048576
  uploaded_chunk_numbers := [0]
  accumulated_upload_ms := 5 }

/-- State after the first accepted chunk: finalizer scheduled once. -/
def demo_st1 : SessState := { demo_init with
  task := { demo_init.task with extra_data := some demo_ed1 }
  finalizeScheduled := 1 }

/-- Extra data after the duplicate delivery: the chunk counter and index
list are unchanged, but the byte counter has doubled. -/
def demo_ed2 : ExtraData := { demo_ed1 with
  uploaded_bytes := 2097152
  accumulated_upload_ms := 12 }

/-- State after the duplicate delivery: finalizer scheduled twice. -/
def demo_st2 : SessState := { demo_st1 with
  task := { demo_st1.task with extra_data := some demo_ed2 }
  finalizeScheduled := 2 }

/-- The init state has the expected concrete form. -/
theorem demo_init_eq :
    demo_init = ⟨⟨TaskType.chunked_upload, TaskStatus.processing, none,
      some demo_ed0, some 86400⟩, true, false, 0⟩ := by
  decide

/-- The demo payload is a full-size chunk. -/
theorem demo_chunk_length : demo_chunk.length = 1048576 := by
  unfold demo_chunk
  exact chunk_payload_length 1048576 (by norm_num)

/-- The demo payload passes the chunk-0 header check. -/
theorem demo_chunk_header : header_ok 0 demo_chunk = true := by
  have hv := validate_ok_of_magic demo_chunk
    (by unfold demo_chunk; exact chunk_payload_take 1048576)
  rw [header_ok, if_pos rfl, hv]

/-- Both deliveries are accepted, yielding the explicit states above. -/
theorem demo_trace : demo_r1 = (demo_st1, none) ∧ demo_r2 = (demo_st2, none) := by
  have e1 : demo_r1 = (demo_st1, none) := by
    have hacc := upload_chunk_accepts demo_init demo_ed0 0 demo_chunk 5
      (by decide) (Or.inr (by decide)) (by decide) (by decide)
      (by rw [demo_chunk_length]; decide) demo_chunk_header (by decide)
    rw [demo_r1, hacc, demo_chunk_length]
    have : accept_update demo_init demo_ed0 0 1048576 5 = demo_st1 := by decide
    rw [this]
  refine ⟨e1, ?_⟩
  have hacc := upload_chunk_accepts demo_st1 demo_ed1 0 demo_chunk 7
    (by decide) (Or.inr (by decide)) (by decide) (by decide)
    (by rw [demo_chunk_length]; decide) demo_chunk_header (by decide)
  rw [demo_r2, e1]
  show upload_chunk demo_st1 0 demo_chunk true 7 = (demo_st2, none)
  rw [hacc, demo_chunk_length]
  have : accept_update demo_st1 demo_ed1 0 1048576 7 = demo_st2 := by decide
  rw [this]

/-- The finalize-schedule counter written by `accept_update`, phrased
through the getters. -/
theorem accept_update_sched (st : SessState) (ed : ExtraData)
    (n len ms : Nat) :
    (accept_update st ed n len ms).finalizeScheduled =
      st.finalizeScheduled +
        (if (ed_get_uploaded_chunks (accept_update st ed n len ms).task.extra_data =
            ed_get_total_chunks (accept_update st ed n len ms).task.extra_data ∧
            st.task.status ∉ [TaskStatus.finalizing, TaskStatus.completed])
         then 1 else 0) := by
  simp only [accept_update, ed_get_uploaded_chunks, ed_get_total_chunks]
  congr 1
  refine if_congr ?_ rfl rfl
  simp [Bool.and_eq_true, decide_eq_true_eq]

/-- Fixture: an init whose storage allocation failed, leaving a `failed`
record with a generic result. -/
def demo_failed : SessState :=
  init_storage_step
    (init_create_state "sample.fcs" 10485760 5242880 true 0) false ""

/-- The failed fixture is reachable. -/
theorem reach_demo_failed : Reach demo_failed :=
  Reach.initStorage _ false ""
    (Reach.initCreate "sample.fcs" 10485760 5242880 true 0 (by norm_num [upload_form_valid]))
    (by decide) (by decide)

/-- Fixture: the failed record after the expiry sweep ran past its
deadline. -/
def demo_expired : SessState := cleanup_expired_session demo_failed 86401

/-- The expired fixture is reachable. -/
theorem reach_demo_expired : Reach demo_expired :=
  Reach.stepCleanup demo_failed 86401 reach_demo_failed

/-- The one-chunk demo states are reachable. -/
theorem reach_demo_st1 : Reach demo_st1 := by
  have h : Reach demo_r1.1 :=
    Reach.stepChunk demo_init 0 demo_chunk true 5
      (Reach.initStorage _ true "tmp/10/1.tmp"
        (Reach.initCreate "sample.fcs" 1048576 1048576 true 0
          (by norm_num [upload_form_valid]))
        (by decide) (by decide))
  rw [demo_trace.1] at h
  exact h

/-! ### Claim theorems -/

/-- C1 (amended): an accepted chunk call increments the finalize-schedule
counter by exactly one precisely when the updated uploaded-chunk counter
equals the total chunk count and the status read in the request is not
`finalizing` or `completed`; every rejected call leaves the counter
unchanged.  Because the status stays `processing` until the Finalizer has
run, a duplicate re-delivery of an already-received index that arrives
before finalization completes schedules the Finalizer again, so the
scheduling is not exactly-once. -/
theorem C1_finalizer_scheduling (st : SessState) (n : Nat) (d : List Nat)
    (ok : Bool) (ms : Nat) :
    ((upload_chunk st n d ok ms).2 ≠ none →
      (upload_chunk st n d ok ms).1.finalizeScheduled =
        st.finalizeScheduled) ∧
    ((upload_chunk st n d ok ms).2 = none →
      (((upload_chunk st n d ok ms).1.finalizeScheduled =
          st.finalizeScheduled + 1) ↔
        (ed_get_uploaded_chunks (upload_chunk st n d ok ms).1.task.extra_data =
          ed_get_total_chunks (upload_chunk st n d ok ms).1.task.extra_data ∧
          st.task.status ∉ [TaskStatus.finalizing, TaskStatus.completed])) ∧
      ((upload_chunk st n d ok ms).1.finalizeScheduled =
          st.finalizeScheduled ∨
        (upload_chunk st n d ok ms).1.finalizeScheduled =
          st.finalizeScheduled + 1)) := by
  rcases upload_chunk_cases st n d ok ms with ⟨hne, _, heq⟩ | ⟨hsf, heq⟩ |
    ⟨ed, hed, hnone, hst, _, _, _, heq⟩
  · exact ⟨fun _ => by rw [heq], fun hc => absurd hc hne⟩
  · refine ⟨fun _ => by rw [heq], fun hc => ?_⟩
    rw [hc] at hsf
    exact Option.noConfusion hsf
  · refine ⟨fun hc => absurd hnone hc, fun _ => ?_⟩
    rw [heq, accept_update_sched st ed n d.length ms]
    by_cases hcond : (ed_get_uploaded_chunks
        (accept_update st ed n d.length ms).task.extra_data =
      ed_get_total_chunks (accept_update st ed n d.length ms).task.extra_data ∧
      st.task.status ∉ [TaskStatus.finalizing, TaskStatus.completed])
    · rw [if_pos hcond]
      exact ⟨⟨fun _ => hcond, fun _ => rfl⟩, Or.inr rfl⟩
    · rw [if_neg hcond]
      exact ⟨⟨fun hx => absurd hx (by omega), fun hx => absurd hx hcond⟩,
        Or.inl rfl⟩

/-- C1 witness: the first accepted chunk of the one-chunk demo session
schedules the Finalizer. -/
theorem C1_finalizer_scheduling_witness :
    (upload_chunk demo_init 0 demo_chunk true 5).2 = none ∧
    (upload_chunk demo_init 0 demo_chunk true 5).1.finalizeScheduled =
      demo_init.finalizeScheduled + 1 := by
  have e1 : upload_chunk demo_init 0 demo_chunk true 5 = (demo_st1, none) :=
    demo_trace.1
  have hnone : (upload_chunk demo_init 0 demo_chunk true 5).2 = none := by
    rw [e1]
  have hcond : ed_get_uploaded_chunks
      (upload_chunk demo_init 0 demo_chunk true 5).1.task.extra_data =
      ed_get_total_chunks
        (upload_chunk demo_init 0 demo_chunk true 5).1.task.extra_data ∧
      demo_init.task.status ∉ [TaskStatus.finalizing, TaskStatus.completed] := by
    rw [e1]
    decide
  exact ⟨hnone,
    (((C1_finalizer_scheduling demo_init 0 demo_chunk true 5).2 hnone).1).mpr
      hcond⟩

/-- C1 counterexample: in a reachable one-chunk session the identical
valid chunk 0 is accepted twice (the duplicate arriving before the
Finalizer ran), and the Finalizer is scheduled twice, refuting the
exactly-once claim. -/
theorem C1_counterexample :
    Reach demo_r2.1 ∧ demo_r1.2 = none ∧ demo_r2.2 = none ∧
    demo_r1.1.finalizeScheduled = 1 ∧ demo_r2.1.finalizeScheduled = 2 := by
  obtain ⟨e1, e2⟩ := demo_trace
  refine ⟨?_, by rw [e1], by rw [e2], by rw [e1]; rfl, by rw [e2]; rfl⟩
  exact Reach.stepChunk demo_r1.1 0 demo_chunk true 7
    (Reach.stepChunk demo_init 0 demo_chunk true 5
      (Reach.initStorage _ true "tmp/10/1.tmp"
        (Reach.initCreate "sample.fcs" 1048576 1048576 true 0
          (by norm_num [upload_form_valid]))
        (by decide) (by decide)))

/-- C2: evaluation of the code at the failing input.  Re-uploading the
identical valid chunk 0 leaves `uploaded_chunks` and
`uploaded_chunk_numbers` deduplicated (1 and [0]) but doubles
`uploaded_bytes` from 1048576 to 2097152, because the byte increment sits
outside the duplicate guard. -/
theorem C2_duplicate_chunk_accounting :
    demo_r1.2 = none ∧ demo_r2.2 = none ∧
    demo_r1.1.task.extra_data = some demo_ed1 ∧
    demo_r2.1.task.extra_data = some demo_ed2 ∧
    demo_ed1.uploaded_chunks = 1 ∧ demo_ed2.uploaded_chunks = 1 ∧
    demo_ed1.uploaded_chunk_numbers = [0] ∧
    demo_ed2.uploaded_chunk_numbers = [0] ∧
    demo_ed1.uploaded_bytes = 1048576 ∧
    demo_ed2.uploaded_bytes = 2097152 := by
  obtain ⟨e1, e2⟩ := demo_trace
  exact ⟨by rw [e1], by rw [e2], by rw [e1]; rfl, by rw [e2]; rfl, by decide,
    by decide, by decide, by decide, by decide, by decide⟩

/-- Fixture: a freshly created statistics task aborted through the
type-check-free abort endpoint (status failed, user-abort result). -/
def demo_stats_aborted : SessState :=
  (abort_chunked_upload stats_create_state).1

/-- Fixture: the aborted statistics task after its already-scheduled
statistics job ran and set status `processing` unconditionally, leaving
the abort result in place. -/
def demo_stats_processing : SessState :=
  stats_mark_processing demo_stats_aborted

/-- The aborted-then-marked-processing statistics record is reachable. -/
theorem reach_demo_stats_processing : Reach demo_stats_processing :=
  Reach.statsProcessing demo_stats_aborted
    (Reach.stepAbort stats_create_state Reach.statsCreate) (by decide)

/-- C3 (amended): for every reachable record, completed or failed status
implies a non-null result, and a record with a non-null result is never
pending (nor finalizing).  A non-null result does not imply a terminal
status: the expiry sweep keeps the result of a failed record it moves to
expired, and the statistics job marks even an aborted (failed, result
set) task processing, so non-terminal statuses expired and processing can
carry results. -/
theorem C3_result_terminal (st : SessState) (h : Reach st) :
    ((st.task.status = TaskStatus.completed ∨
      st.task.status = TaskStatus.failed) → st.task.result.isSome = true) ∧
    (st.task.result.isSome = true →
      st.task.status ≠ TaskStatus.pending ∧
      st.task.status ≠ TaskStatus.finalizing) := by
  have hi := reach_inv st h
  exact ⟨hi.2.1, fun hc => ⟨hi.2.2.1 hc, hi.1⟩⟩

/-- C3 witness: a reachable failed record carries a result, and that
record with its result is neither pending nor finalizing. -/
theorem C3_result_terminal_witness :
    demo_failed.task.result.isSome = true ∧
    (demo_failed.task.status ≠ TaskStatus.pending ∧
      demo_failed.task.status ≠ TaskStatus.finalizing) :=
  ⟨(C3_result_terminal demo_failed reach_demo_failed).1 (by decide),
   (C3_result_terminal demo_failed reach_demo_failed).2 (by decide)⟩

/-- C3 counterexample: two reachable records have a non-null result with
a status that is neither completed nor failed, refuting the claimed iff
in both of its failure modes: the expiry sweep moves a failed record
(result set) to expired, and an aborted statistics task (failed, result
set through the abort endpoint, which never checks the task type) is
afterwards set to processing unconditionally by the statistics job. -/
theorem C3_counterexample :
    (Reach demo_expired ∧
      demo_expired.task.result.isSome = true ∧
      demo_expired.task.status = TaskStatus.expired ∧
      demo_expired.task.status ≠ TaskStatus.completed ∧
      demo_expired.task.status ≠ TaskStatus.failed) ∧
    (Reach demo_stats_processing ∧
      demo_stats_processing.task.result.isSome = true ∧
      demo_stats_processing.task.status = TaskStatus.processing ∧
      demo_stats_processing.task.result =
        some (TaskResult.failure "Upload aborted by user")) :=
  ⟨⟨reach_demo_expired, by decide, by decide, by decide, by decide⟩,
   ⟨reach_demo_stats_processing, by decide, by decide, by decide⟩⟩

/-- C4 (amended): when the parser fails during finalization, the stored
failure result is the fixed text "Invalid FCS file: " followed by the
verbatim parser error message, so the internal error detail is surfaced
in the terminal result rather than replaced by a generic description. -/
theorem C4_parser_error_stored_verbatim (st : SessState) (fid : String)
    (serr : String) (e : String) (cok : Bool) (cerr : String)
    (h1 : st.task.status ≠ TaskStatus.completed)
    (h2 : st.task.status ≠ TaskStatus.finalizing)
    (h3 : ed_get_uploaded_chunks st.task.extra_data =
      ed_get_total_chunks st.task.extra_data)
    (h4 : st.tempFileExists = true) :
    (finalize_chunked_upload st fid true serr
      (Except.error e) cok cerr).1.task.status = TaskStatus.failed ∧
    (finalize_chunked_upload st fid true serr
      (Except.error e) cok cerr).1.task.result =
      some (TaskResult.failure ("Invalid FCS file: " ++ e)) := by
  rw [finalize_chunked_upload.eq_def, if_neg h1, if_neg h2,
    if_neg (by simp [h3]), if_neg (by simp [h4])]
  exact ⟨rfl, rfl⟩

/-- C4 witness: a concrete parser failure stores its message verbatim. -/
theorem C4_parser_error_stored_verbatim_witness :
    (finalize_chunked_upload demo_st1 "f123" true ""
      (Except.error "No text segment") true "").1.task.result =
      some (TaskResult.failure "Invalid FCS file: No text segment") :=
  (C4_parser_error_stored_verbatim demo_st1 "f123" "" "No text segment"
    true "" (by decide) (by decide) (by decide) (by decide)).2

/-- C4 counterexample: two finalization runs of the same reachable
session differing only in the internal parser error produce different
stored results, and the result embeds the internal detail verbatim,
refuting the claim that the result is a generic description independent
of the internal error. -/
theorem C4_counterexample :
    Reach demo_st1 ∧
    (finalize_chunked_upload demo_st1 "f123" true ""
      (Except.error "boom at tmp/10/1.tmp") true "").1.task.result =
      some (TaskResult.failure "Invalid FCS file: boom at tmp/10/1.tmp") ∧
    (finalize_chunked_upload demo_st1 "f123" true ""
      (Except.error "boom at tmp/10/1.tmp") true "").1.task.result ≠
    (finalize_chunked_upload demo_st1 "f123" true ""
      (Except.error "other boom") true "").1.task.result := by
  refine ⟨reach_demo_st1, ?_, ?_⟩ <;> decide

/-- C5: no operation assigns the status `finalizing`, so every reachable
record has status among pending, processing, completed, failed, expired,
and the re-entry guard of the Finalizer (reject when status is
`finalizing`) can never fire on a reachable state. -/
theorem C5_no_finalizing_status (st : SessState) (h : Reach st) :
    st.task.status ∈ [TaskStatus.pending, TaskStatus.processing,
      TaskStatus.completed, TaskStatus.failed, TaskStatus.expired] ∧
    st.task.status ≠ TaskStatus.finalizing ∧
    (∀ fid sok serr pr cok cerr,
      (finalize_chunked_upload st fid sok serr pr cok cerr).2 ≠
        FinalizeOutcome.alreadyFinalizing) := by
  have hfin := (reach_inv st h).1
  refine ⟨?_, hfin, ?_⟩
  · cases hs : st.task.status <;> simp_all
  · intro fid sok serr pr cok cerr
    rw [finalize_chunked_upload.eq_def]
    by_cases c1 : st.task.status = TaskStatus.completed
    · rw [if_pos c1]
      simp
    rw [if_neg c1, if_neg hfin]
    by_cases c3 : ed_get_uploaded_chunks st.task.extra_data ≠
        ed_get_total_chunks st.task.extra_data
    · rw [if_pos c3]
      simp
    rw [if_neg c3]
    by_cases c4 : ¬ (sok = true ∧ st.tempFileExists = true)
    · rw [if_pos c4]
      simp
    rw [if_neg c4]
    cases pr with
    | error e => simp
    | ok meta =>
      by_cases c5 : cok = true
      · simp [if_pos c5]
      · simp [if_neg c5]

/-- C5 witness: the reachable failed fixture is not finalizing and its
finalize call does not take the re-entry branch. -/
theorem C5_no_finalizing_status_witness :
    demo_failed.task.status ≠ TaskStatus.finalizing ∧
    (finalize_chunked_upload demo_failed "f" true "" (Except.error "x")
      true "").2 ≠ FinalizeOutcome.alreadyFinalizing :=
  ⟨(C5_no_finalizing_status demo_failed reach_demo_failed).2.1,
   (C5_no_finalizing_status demo_failed reach_demo_failed).2.2
     "f" true "" (Except.error "x") true ""⟩

/-- C6: for every positive totalSize and chunkSize, the computed
`total_chunks` is the ceiling of `totalSize / chunkSize` (characterised
by `cs*(tc-1) < fs ≤ cs*tc`), the expected size of the last chunk index
equals `totalSize - chunkSize*(totalChunks-1)`, and every earlier index
expects exactly `chunkSize`. -/
theorem C6_chunk_count_and_sizes (fs cs : Nat) (hfs : 0 < fs)
    (hcs : 0 < cs) :
    (cs * (calc_total_chunks fs cs - 1) < fs ∧
      fs ≤ cs * calc_total_chunks fs cs) ∧
    (∀ ed : ExtraData, ed.file_size = fs → ed.chunk_size = cs →
      ed.total_chunks = calc_total_chunks fs cs →
      expected_chunk_size ed (ed.total_chunks - 1) =
        fs - cs * (ed.total_chunks - 1) ∧
      (∀ i, i < ed.total_chunks - 1 → expected_chunk_size ed i = cs)) := by
  refine ⟨calc_total_chunks_ceil fs cs hfs hcs, ?_⟩
  intro ed h1 h2 h3
  refine ⟨?_, ?_⟩
  · have hlast := expected_chunk_size_last ed (by rw [h1]; exact hfs)
      (by rw [h2]; exact hcs) (by rw [h3, h1, h2])
    rw [hlast, h1, h2]
  · intro i hi
    rw [expected_chunk_size_nonlast ed i hi, h2]

/-- C6 witness: the spec scenario 10485760 bytes in 5242880-byte chunks
gives 2 chunks covering the file. -/
theorem C6_chunk_count_and_sizes_witness :
    calc_total_chunks 10485760 5242880 = 2 ∧
    (5242880 * (calc_total_chunks 10485760 5242880 - 1) < 10485760 ∧
      10485760 ≤ 5242880 * calc_total_chunks 10485760 5242880) ∧
    expected_chunk_size demo_ed0 (demo_ed0.total_chunks - 1) =
      1048576 - 1048576 * (demo_ed0.total_chunks - 1) :=
  ⟨by decide,
   (C6_chunk_count_and_sizes 10485760 5242880 (by decide) (by decide)).1,
   ((C6_chunk_count_and_sizes 1048576 1048576 (by decide) (by decide)).2
     demo_ed0 rfl rfl (by decide)).1⟩

/-- C7: every synchronous validation rejection of `upload_chunk` (out of
range index, size mismatch, chunk-0 format rejection) leaves the session
state completely unchanged, so the same chunk may be retried. -/
theorem C7_validation_rejection_pure (st : SessState) (n : Nat)
    (d : List Nat) (ok : Bool) (ms : Nat) (e : ChunkError)
    (h : (upload_chunk st n d ok ms).2 = some e)
    (he : e = ChunkError.outOfRange ∨ e = ChunkError.sizeMismatch ∨
      e = ChunkError.invalidFormat) :
    (upload_chunk st n d ok ms).1 = st := by
  rcases upload_chunk_cases st n d ok ms with ⟨_, _, heq⟩ | ⟨hsf, _⟩ |
    ⟨_, _, hnone, _⟩
  · exact heq
  · exfalso
    rw [h] at hsf
    rcases he with rfl | rfl | rfl <;> simp at hsf
  · exfalso
    rw [h] at hnone
    exact Option.noConfusion hnone

/-- C7 witness: an empty chunk 0 is rejected with a size mismatch and the
state is untouched. -/
theorem C7_validation_rejection_pure_witness :
    (upload_chunk demo_init 0 [] true 5).2 = some ChunkError.sizeMismatch ∧
    (upload_chunk demo_init 0 [] true 5).1 = demo_init :=
  ⟨by decide, C7_validation_rejection_pure demo_init 0 [] true 5
    ChunkError.sizeMismatch (by decide) (by decide)⟩

/-- C8: if the parser invocation or the metadata-record commit fails
after the temp file has been promoted, the promoted permanent file is
deleted and the task ends failed with a recorded result, leaving no
permanently-visible file artifact. -/
theorem C8_failure_after_promotion_cleans_up (st : SessState)
    (fid : String) (serr : String) (e : String) (meta : ParsedMeta)
    (cerr : String)
    (h1 : st.task.status ≠ TaskStatus.completed)
    (h2 : st.task.status ≠ TaskStatus.finalizing)
    (h3 : ed_get_uploaded_chunks st.task.extra_data =
      ed_get_total_chunks st.task.extra_data)
    (h4 : st.tempFileExists = true) :
    ((finalize_chunked_upload st fid true serr
        (Except.error e) true cerr).1.permFileExists = false ∧
      (finalize_chunked_upload st fid true serr
        (Except.error e) true cerr).1.task.status = TaskStatus.failed ∧
      (finalize_chunked_upload st fid true serr
        (Except.error e) true cerr).1.task.result.isSome = true) ∧
    ((finalize_chunked_upload st fid true serr
        (Except.ok meta) false cerr).1.permFileExists = false ∧
      (finalize_chunked_upload st fid true serr
        (Except.ok meta) false cerr).1.task.status = TaskStatus.failed ∧
      (finalize_chunked_upload st fid true serr
        (Except.ok meta) false cerr).1.task.result.isSome = true) := by
  constructor
  · rw [finalize_chunked_upload.eq_def, if_neg h1, if_neg h2,
      if_neg (by simp [h3]), if_neg (by simp [h4])]
    exact ⟨rfl, rfl, rfl⟩
  · rw [finalize_chunked_upload.eq_def, if_neg h1, if_neg h2,
      if_neg (by simp [h3]), if_neg (by simp [h4])]
    exact ⟨rfl, rfl, rfl⟩

/-- C8 witness: concrete parser and commit failures after promotion leave
no permanent file. -/
theorem C8_failure_after_promotion_cleans_up_witness :
    (finalize_chunked_upload demo_st1 "f9" true ""
      (Except.error "bad header") true "").1.permFileExists = false ∧
    (finalize_chunked_upload demo_st1 "f9" true ""
      (Except.ok ⟨100, 8⟩) false "db down").1.permFileExists = false := by
  have h := C8_failure_after_promotion_cleans_up demo_st1 "f9" ""
    "bad header" ⟨100, 8⟩ "db down" (by decide) (by decide) (by decide)
    (by decide)
  exact ⟨h.1.1, h.2.1⟩

/-- C9 (amended): abort is rejected with a conflict, leaving everything
untouched, only when the session is `completed`; for every other status
(pending, processing, and even the terminal failed and expired) abort
succeeds, deletes the temp file, leaves the permanent file untouched,
sets status `failed` with the user-abort result, and subsequent chunk
uploads to the session are rejected with a conflict. -/
theorem C9_abort_behavior (st : SessState) :
    (st.task.status = TaskStatus.completed →
      abort_chunked_upload st = (st, some ())) ∧
    (st.task.status ≠ TaskStatus.completed →
      (abort_chunked_upload st).2 = none ∧
      (abort_chunked_upload st).1.tempFileExists = false ∧
      (abort_chunked_upload st).1.permFileExists = st.permFileExists ∧
      (abort_chunked_upload st).1.task.status = TaskStatus.failed ∧
      (abort_chunked_upload st).1.task.result =
        some (TaskResult.failure "Upload aborted by user") ∧
      (∀ n d ok ms,
        (abort_chunked_upload st).1.task.task_type =
          TaskType.chunked_upload →
        upload_chunk (abort_chunked_upload st).1 n d ok ms =
          ((abort_chunked_upload st).1, some ChunkError.conflict))) := by
  constructor
  · intro hc
    rw [abort_chunked_upload, if_pos hc]
  · intro hc
    rw [abort_chunked_upload, if_neg hc]
    refine ⟨rfl, rfl, rfl, rfl, rfl, ?_⟩
    intro n d ok ms hty
    rw [upload_chunk.eq_def, if_neg (by simp [hty] at *; simp [hty]),
      if_pos (by simp)]

/-- C9 witness: aborting the freshly initialised processing session
succeeds, removes the temp file, and later chunk uploads conflict. -/
theorem C9_abort_behavior_witness :
    (abort_chunked_upload demo_init).2 = none ∧
    (abort_chunked_upload demo_init).1.tempFileExists = false ∧
    (abort_chunked_upload demo_init).1.task.status = TaskStatus.failed ∧
    upload_chunk (abort_chunked_upload demo_init).1 0 [] true 5 =
      ((abort_chunked_upload demo_init).1, some ChunkError.conflict) := by
  have h := (C9_abort_behavior demo_init).2 (by decide)
  exact ⟨h.1, h.2.1, h.2.2.2.1, h.2.2.2.2.2 0 [] true 5 (by decide)⟩

/-- C9 counterexample: abort on a reachable terminal `failed` record and
on a reachable terminal `expired` record is not rejected: it succeeds and
rewrites the record (overwriting the failed result, pulling the expired
record back to failed), refuting the claim that abort on any terminal
status is rejected with a conflict and leaves the record untouched. -/
theorem C9_counterexample :
    Reach demo_failed ∧
    demo_failed.task.status = TaskStatus.failed ∧
    (abort_chunked_upload demo_failed).2 = none ∧
    (abort_chunked_upload demo_failed).1.task.result ≠
      demo_failed.task.result ∧
    Reach demo_expired ∧
    demo_expired.task.status = TaskStatus.expired ∧
    (abort_chunked_upload demo_expired).2 = none ∧
    (abort_chunked_upload demo_expired).1.task.status = TaskStatus.failed :=
  ⟨reach_demo_failed, by decide, by decide, by decide,
   reach_demo_expired, by decide, by decide, by decide⟩

/-- C10: the magic-header check fails exactly on payloads shorter than 3
bytes or whose first 3 bytes differ from "FCS"; any payload whose first 3
bytes are the magic passes, whatever follows; and a reachable session
whose declared total size is below 3 bytes never has chunk 0 accepted and
never reaches `completed`. -/
theorem C10_header_check :
    (∀ d : List Nat, (∃ e, validate_fcs_header d = Except.error e) ↔
      (d.length < 3 ∨ d.take 3 ≠ fcsMagic)) ∧
    (∀ d : List Nat, d.take 3 = fcsMagic →
      validate_fcs_header d = Except.ok ()) ∧
    (∀ st : SessState, Reach st →
      ∀ ed, st.task.extra_data = some ed → ed.file_size < 3 →
        0 ∉ ed.uploaded_chunk_numbers ∧
        st.task.status ≠ TaskStatus.completed) := by
  refine ⟨validate_error_iff, validate_ok_of_magic, ?_⟩
  intro st h ed hed hsm
  exact ((reach_inv st h).2.2.2.2 ed hed).2.2.2.2.2.2 hsm

/-- Fixture: a session declared with a 2-byte total size. -/
def demo_tiny : SessState := init_create_state "tiny.fcs" 2 1048576 true 0

/-- The 2-byte session is reachable. -/
theorem reach_demo_tiny : Reach demo_tiny :=
  Reach.initCreate "tiny.fcs" 2 1048576 true 0
    (by norm_num [upload_form_valid])

/-- C10 witness: a 2-byte payload is rejected, a payload starting with
the magic passes regardless of the rest, and the 2-byte session is not
completed. -/
theorem C10_header_check_witness :
    (∃ e, validate_fcs_header [70, 67] = Except.error e) ∧
    validate_fcs_header [70, 67, 83, 255, 255] = Except.ok () ∧
    demo_tiny.task.status ≠ TaskStatus.completed :=
  ⟨(C10_header_check.1 [70, 67]).mpr (by decide),
   C10_header_check.2.1 [70, 67, 83, 255, 255] (by decide),
   (C10_header_check.2.2 demo_tiny reach_demo_tiny _ rfl (by decide)).2⟩
